import Mathlib

/-!
Verification of the synthetic-data generator of the Apache Iceberg
enterprise-demo notebook (`apache_iceberg_enterprise_demo-checkpoint.ipynb`).

The notebook's only locally authored logic is two record generators,
`generate_customer_data` and `generate_sales_data`, plus a derived
`total_amount` column added with `withColumn`.  We embed them shallowly:

* Python's global PRNG is modelled by explicit entropy streams.  A stream
  `g : Nat -> Nat` supplies the raw entropy for the integer-valued calls
  (`random.randint`, `random.choice`), and a stream `u : Nat -> Rat` supplies
  the raw entropy for `random.uniform`, whose draws lie in `[0, 1)` exactly as
  `random.random()` does; that bound appears as a hypothesis where needed.
  Each record consumes a fixed number of draws, so the i-th record reads the
  draws at offsets `perRecord * i + k`, mirroring sequential consumption.
* `random.randint a b` returns `a + r % (b - a + 1)` for raw entropy `r`,
  which is exactly its contract: a uniform choice from `[a, b]` inclusive.
* `random.choice xs` picks index `r % xs.length`.
* `random.uniform a b` returns `a + (b - a) * q` for a raw draw `q ∈ [0, 1)`,
  mirroring CPython's `a + (b-a) * random()`.
* Python floats are modelled as rationals; `round(x, 2)` is banker's rounding
  (round-half-to-even) at two decimal places, as in CPython.
* `datetime(2020, 1, 1)` and `datetime(2023, 1, 1)` are modelled by their
  proleptic Gregorian ordinals; `timedelta(days = d)` adds `d`.
* f-string `{n:0wd}` formatting is modelled by `padNum w n`: the decimal
  rendering of `n` left-padded with zeros to width `w`.
-/

/-- Raw entropy for one `random.randint(a, b)` call: a uniform element of the
inclusive range `[a, b]`. -/
def randint (a b : Nat) (r : Nat) : Nat := a + r % (b - a + 1)

/-- Raw entropy for one `random.choice(xs)` call: element at index
`r % xs.length`, with a default for the (never occurring) empty list. -/
def choiceD {α : Type} (xs : List α) (d : α) (r : Nat) : α :=
  xs.getD (r % xs.length) d

/-- `random.uniform a b` = `a + (b - a) * random()` with the raw draw `q` in
`[0, 1)`. -/
def uniform (a b : ℚ) (q : ℚ) : ℚ := a + (b - a) * q

/-- Round-half-to-even to the nearest integer, as CPython's `round` does. -/
def roundHalfEven (x : ℚ) : ℤ :=
  let f := ⌊x⌋
  let r := x - (f : ℚ)
  if r < 1/2 then f
  else if 1/2 < r then f + 1
  else if Even f then f else f + 1

/-- Python's `round(x, 2)`: banker's rounding at two decimal places. -/
def round2 (x : ℚ) : ℚ := (roundHalfEven (x * 100) : ℚ) / 100

/-- The decimal digit characters of `n` (most significant first); `0` renders
as `"0"` as in Python. -/
def decChars (n : Nat) : List Char :=
  if n = 0 then ['0']
  else (Nat.digits 10 n).reverse.map (fun d => Char.ofNat (48 + d))

/-- Decimal rendering of `n`, as Python's `f-string` `{n}` produces. -/
def toDec (n : Nat) : String := ⟨decChars n⟩

/-- Python's `f-string` `{n:0wd}`: decimal rendering of `n` left-padded with
zeros to width `w`. -/
def padNum (w n : Nat) : String :=
  ⟨List.replicate (w - (decChars n).length) '0' ++ decChars n⟩

/-- Proleptic Gregorian ordinal of `datetime(2020, 1, 1)`. -/
def ordinal2020 : Nat := 737425

/-- Proleptic Gregorian ordinal of `datetime(2023, 1, 1)`. -/
def ordinal2023 : Nat := 738521

/-- A customer record as built by `generate_customer_data`.  Dates are
proleptic Gregorian ordinals. -/
structure Customer where
  customer_id : String
  first_name : String
  last_name : String
  email : String
  registration_date : Nat
  customer_segment : String
  credit_limit : Nat
  country : String
  is_active : Bool
  deriving DecidableEq, Repr

/-- A sales record as built by `generate_sales_data` (before the derived
`total_amount` column is added). -/
structure Sale where
  transaction_id : String
  customer_id : String
  product_id : String
  transaction_date : Nat
  quantity : Nat
  unit_price : ℚ
  discount_percentage : ℚ
  payment_method : String
  sales_rep : String
  deriving DecidableEq, Repr

/-- A sales record after `withColumn('total_amount', ...)`. -/
structure SaleT where
  transaction_id : String
  customer_id : String
  product_id : String
  transaction_date : Nat
  quantity : Nat
  unit_price : ℚ
  discount_percentage : ℚ
  payment_method : String
  sales_rep : String
  total_amount : ℚ
  deriving DecidableEq, Repr

/-- The dict literal built for index `i` in `generate_customer_data`'s loop;
`g 0 .. g 4` are the raw draws of its five random calls, in evaluation
order. -/
def mkCustomer (i : Nat) (g : Nat → Nat) : Customer :=
  { customer_id := "CUST_" ++ padNum 6 i
    first_name := "FirstName" ++ toDec i
    last_name := "LastName" ++ toDec i
    email := "customer" ++ toDec i ++ "@enterprise.com"
    registration_date := ordinal2020 + randint 0 1400 (g 0)
    customer_segment := choiceD ["Premium", "Standard", "Basic"] "" (g 1)
    credit_limit := randint 1000 50000 (g 2)
    country := choiceD ["USA", "Canada", "UK", "Germany", "France"] "" (g 3)
    is_active := choiceD [true, false] true (g 4) }

/-- The dict literal built for index `i` in `generate_sales_data`'s loop;
`g 0 .. g 5` are the raw draws of its six integer random calls and
`u 0, u 1` those of its two `random.uniform` calls, in evaluation order. -/
def mkSale (i : Nat) (g : Nat → Nat) (u : Nat → ℚ) : Sale :=
  { transaction_id := "TXN_" ++ padNum 8 i
    customer_id := "CUST_" ++ padNum 6 (randint 0 999 (g 0))
    product_id := "PROD_" ++ padNum 3 (randint 1 100 (g 1))
    transaction_date := ordinal2023 + randint 0 365 (g 2)
    quantity := randint 1 10 (g 3)
    unit_price := round2 (uniform 10 500 (u 0))
    discount_percentage := uniform 0 (3/10) (u 1)
    payment_method := choiceD ["Credit Card", "Debit Card", "Cash", "Bank Transfer"] "" (g 4)
    sales_rep := "REP_" ++ padNum 3 (randint 1 50 (g 5)) }

/-- `generate_customer_data(num_customers)`: one record per loop index in
`range(num_customers)`; the i-th record consumes the five integer draws at
offsets `5*i .. 5*i+4`.  The count is an `Int` so that Python's behaviour on
non-positive counts (`range` is empty) is captured. -/
def generate_customer_data (num_customers : Int) (g : Nat → Nat) : List Customer :=
  (List.range num_customers.toNat).map (fun i => mkCustomer i (fun k => g (5 * i + k)))

/-- `generate_sales_data(num_transactions)`: one record per loop index in
`range(num_transactions)`; the i-th record consumes the six integer draws at
offsets `6*i .. 6*i+5` and the two uniform draws at offsets `2*i, 2*i+1`. -/
def generate_sales_data (num_transactions : Int) (g : Nat → Nat) (u : Nat → ℚ) : List Sale :=
  (List.range num_transactions.toNat).map
    (fun i => mkSale i (fun k => g (6 * i + k)) (fun k => u (2 * i + k)))

/-- The `withColumn('total_amount', col('quantity') * col('unit_price') *
(1 - col('discount_percentage')))` step, applied to one row. -/
def addTotalAmount (s : Sale) : SaleT :=
  { transaction_id := s.transaction_id
    customer_id := s.customer_id
    product_id := s.product_id
    transaction_date := s.transaction_date
    quantity := s.quantity
    unit_price := s.unit_price
    discount_percentage := s.discount_percentage
    payment_method := s.payment_method
    sales_rep := s.sales_rep
    total_amount := (s.quantity : ℚ) * s.unit_price * (1 - s.discount_percentage) }

/-- The derived-column step over the whole sales data set. -/
def withTotalAmount (l : List Sale) : List SaleT := l.map addTotalAmount

/-- Two successive calls of `generate_customer_data` with the same count,
drawing from one sequentially consumed entropy stream: the first call consumes
draws `0 .. 5n-1`, the second the draws from `5n` on. -/
def generate_customer_data_twice (n : Int) (g : Nat → Nat) :
    List Customer × List Customer :=
  (generate_customer_data n g,
   generate_customer_data n (fun k => g (5 * n.toNat + k)))

/-- Two successive calls of `generate_sales_data` with the same count, drawing
from sequentially consumed entropy streams. -/
def generate_sales_data_twice (n : Int) (g : Nat → Nat) (u : Nat → ℚ) :
    List Sale × List Sale :=
  (generate_sales_data n g u,
   generate_sales_data n (fun k => g (6 * n.toNat + k)) (fun k => u (2 * n.toNat + k)))

/-- A customer record as a function of its index and its five dedicated raw
draws, one per random field, taken separately: the decomposition that shows
each field reads exactly one draw of its own. -/
def mkCustomerOfDraws (i d0 d1 d2 d3 d4 : Nat) : Customer :=
  { customer_id := "CUST_" ++ padNum 6 i
    first_name := "FirstName" ++ toDec i
    last_name := "LastName" ++ toDec i
    email := "customer" ++ toDec i ++ "@enterprise.com"
    registration_date := ordinal2020 + randint 0 1400 d0
    customer_segment := choiceD ["Premium", "Standard", "Basic"] "" d1
    credit_limit := randint 1000 50000 d2
    country := choiceD ["USA", "Canada", "UK", "Germany", "France"] "" d3
    is_active := choiceD [true, false] true d4 }

/-- A sales record as a function of its index and its eight dedicated raw
draws (six integer, two uniform), one per random field, taken separately. -/
def mkSaleOfDraws (i d0 d1 d2 d3 d4 d5 : Nat) (q0 q1 : ℚ) : Sale :=
  { transaction_id := "TXN_" ++ padNum 8 i
    customer_id := "CUST_" ++ padNum 6 (randint 0 999 d0)
    product_id := "PROD_" ++ padNum 3 (randint 1 100 d1)
    transaction_date := ordinal2023 + randint 0 365 d2
    quantity := randint 1 10 d3
    unit_price := round2 (uniform 10 500 q0)
    discount_percentage := uniform 0 (3/10) q1
    payment_method := choiceD ["Credit Card", "Debit Card", "Cash", "Bank Transfer"] "" d4
    sales_rep := "REP_" ++ padNum 3 (randint 1 50 d5) }

/-- The numeric value of a decimal digit character. -/
def charVal (c : Char) : Nat := c.toNat - 48

/-- Read a (possibly zero-padded) decimal string back to the number it
renders. -/
def decodeNat (cs : List Char) : Nat := Nat.ofDigits 10 ((cs.map charVal).reverse)

/-- An all-zero integer entropy stream. -/
def gZero : Nat → Nat := fun _ => 0

/-- An integer entropy stream that differs from `gZero` from offset 6 on. -/
def gSeven : Nat → Nat := fun k => if k < 6 then 0 else 7

/-- An integer entropy stream that differs from `gZero` from offset 5 on:
inside the sales draw window of record 0 but outside its customer draw
window. -/
def gFive : Nat → Nat := fun k => if k < 5 then 0 else 7

/-- A constant uniform entropy stream with every draw `1/2 ∈ [0, 1)`. -/
def uHalf : Nat → ℚ := fun _ => 1/2

/-- The single sales record (with the derived column) generated from the
witness streams. -/
def saleT0 : SaleT := addTotalAmount (mkSale 0 gZero uHalf)

/-- The single sales record (without the derived column) generated from the
witness streams. -/
def sale0 : Sale := mkSale 0 gZero uHalf

/-! ### Helper lemmas about the random primitives -/

theorem randint_le (a b r : Nat) (h : a ≤ b) :
    a ≤ randint a b r ∧ randint a b r ≤ b := by
  unfold randint
  have hpos : 0 < b - a + 1 := Nat.succ_pos _
  have := Nat.mod_lt r hpos
  omega

theorem choiceD_mem {α : Type} (xs : List α) (d : α) (r : Nat) (h : xs ≠ []) :
    choiceD xs d r ∈ xs := by
  unfold choiceD
  have hlen : 0 < xs.length := List.length_pos.mpr h
  have hlt : r % xs.length < xs.length := Nat.mod_lt r hlen
  rw [List.getD_eq_getElem?_getD, List.getElem?_eq_getElem hlt]
  exact List.getElem_mem hlt

theorem uniform_bounds (a b q : ℚ) (hab : a ≤ b) (h0 : 0 ≤ q) (h1 : q < 1) :
    a ≤ uniform a b q ∧ uniform a b q ≤ b := by
  unfold uniform
  constructor
  · nlinarith
  · nlinarith

theorem roundHalfEven_bounds (x : ℚ) :
    x - 1/2 ≤ (roundHalfEven x : ℚ) ∧ (roundHalfEven x : ℚ) ≤ x + 1/2 := by
  simp only [roundHalfEven]
  have h0 : (⌊x⌋ : ℚ) ≤ x := Int.floor_le x
  have h1 : x < (⌊x⌋ : ℚ) + 1 := Int.lt_floor_add_one x
  split_ifs with hlt hgt hev
  · constructor <;> push_cast <;> linarith
  · constructor <;> push_cast <;> linarith
  · constructor <;> push_cast <;> linarith
  · constructor <;> push_cast <;> linarith

theorem unit_price_bounds (q : ℚ) (h0 : 0 ≤ q) (h1 : q < 1) :
    10 ≤ round2 (uniform 10 500 q) ∧ round2 (uniform 10 500 q) ≤ 500 := by
  have hu : 10 ≤ uniform 10 500 q ∧ uniform 10 500 q ≤ 500 :=
    uniform_bounds 10 500 q (by norm_num) h0 h1
  have hub : uniform 10 500 q < 500 := by
    unfold uniform at *
    nlinarith
  set x := uniform 10 500 q with hx
  have hr := roundHalfEven_bounds (x * 100)
  have hlow : (999 : ℤ) < roundHalfEven (x * 100) := by
    have : (999 : ℚ) < (roundHalfEven (x * 100) : ℚ) := by nlinarith [hu.1, hr.1]
    exact_mod_cast this
  have hhigh : roundHalfEven (x * 100) < 50001 := by
    have : (roundHalfEven (x * 100) : ℚ) < 50001 := by nlinarith [hr.2]
    exact_mod_cast this
  unfold round2
  constructor
  · have : (1000 : ℚ) ≤ (roundHalfEven (x * 100) : ℚ) := by exact_mod_cast hlow
    linarith
  · have : (roundHalfEven (x * 100) : ℚ) ≤ 50000 := by exact_mod_cast Int.lt_add_one_iff.mp hhigh
    linarith

theorem discount_bounds (q : ℚ) (h0 : 0 ≤ q) (h1 : q < 1) :
    0 ≤ uniform 0 (3/10) q ∧ uniform 0 (3/10) q ≤ 3/10 := by
  unfold uniform
  constructor
  · nlinarith
  · nlinarith

/-! ### Decoding decimal renderings: the zero-padded ids are injective -/

theorem charVal_digitChar (d : Nat) (hd : d < 10) :
    charVal (Char.ofNat (48 + d)) = d := by
  interval_cases d <;> rfl

theorem ofDigits_replicate_zero (k : Nat) :
    Nat.ofDigits 10 (List.replicate k 0) = 0 := by
  induction k with
  | zero => rfl
  | succ m ih => simp [List.replicate_succ, Nat.ofDigits, ih]

theorem decodeNat_decChars (n : Nat) : decodeNat (decChars n) = n := by
  unfold decodeNat decChars
  by_cases h : n = 0
  · subst h
    decide
  · rw [if_neg h, List.map_map, List.map_congr_left, List.map_id, List.reverse_reverse,
      Nat.ofDigits_digits]
    intro d hd
    have : d < 10 := Nat.digits_lt_base (by norm_num) (List.mem_reverse.mp hd)
    exact charVal_digitChar d this

theorem decodeNat_padNum (w n : Nat) : decodeNat (padNum w n).data = n := by
  show decodeNat (List.replicate (w - (decChars n).length) '0' ++ decChars n) = n
  unfold decodeNat
  rw [List.map_append, List.map_replicate, List.reverse_append, Nat.ofDigits_append]
  have hzero : charVal '0' = 0 := rfl
  rw [hzero, List.reverse_replicate, ofDigits_replicate_zero]
  have := decodeNat_decChars n
  unfold decodeNat at this
  simpa using this

theorem padNum_inj (w : Nat) : Function.Injective (padNum w) := by
  intro a b hab
  have ha := decodeNat_padNum w a
  have hb := decodeNat_padNum w b
  rw [hab] at ha
  omega

theorem append_padNum_inj (p : String) (w : Nat) :
    Function.Injective (fun n => p ++ padNum w n) := by
  intro a b hab
  apply padNum_inj w
  have hdata : (p ++ padNum w a).data = (p ++ padNum w b).data := congrArg String.data hab
  rw [String.data_append, String.data_append] at hdata
  have := List.append_cancel_left hdata
  exact String.ext this

/-! ### The claims -/

/-- Claim C1: for every requested count `N ≥ 0`, `generate_customer_data N`
and `generate_sales_data N` each return a sequence of exactly `N` records. -/
theorem claim_C1_exact_counts (n : Int) (g : Nat → Nat) (u : Nat → ℚ)
    (h : 0 ≤ n) :
    (generate_customer_data n g).length = n.toNat ∧
    (generate_sales_data n g u).length = n.toNat := by
  refine ⟨?_, ?_⟩ <;>
    simp [generate_customer_data, generate_sales_data]

/-- Witness for C1 at the concrete count 3. -/
theorem claim_C1_exact_counts_witness :
    (0 : Int) ≤ 3 ∧
    ((generate_customer_data 3 gZero).length = (3 : Int).toNat ∧
     (generate_sales_data 3 gZero uHalf).length = (3 : Int).toNat) :=
  ⟨by norm_num, claim_C1_exact_counts 3 gZero uHalf (by norm_num)⟩

/-- Claim C2: every record produced after the derived-column step satisfies
`total_amount = quantity * unit_price * (1 - discount_percentage)`, computed
from the other fields of the same record. -/
theorem claim_C2_total_amount (n : Int) (g : Nat → Nat) (u : Nat → ℚ)
    (r : SaleT) (hr : r ∈ withTotalAmount (generate_sales_data n g u)) :
    r.total_amount = (r.quantity : ℚ) * r.unit_price * (1 - r.discount_percentage) := by
  rcases List.mem_map.mp hr with ⟨s, -, rfl⟩
  rfl

/-- Witness for C2 on the concrete one-record data set. -/
theorem claim_C2_total_amount_witness :
    saleT0 ∈ withTotalAmount (generate_sales_data 1 gZero uHalf) ∧
    saleT0.total_amount =
      (saleT0.quantity : ℚ) * saleT0.unit_price * (1 - saleT0.discount_percentage) :=
  ⟨List.mem_singleton.mpr rfl,
   claim_C2_total_amount 1 gZero uHalf saleT0 (List.mem_singleton.mpr rfl)⟩

/-- Claim C8: for every non-positive count `N ≤ 0`, both generators return
the empty sequence (Python's `range` over a non-positive bound is empty); as
total functions of an arbitrary integer count they never raise. -/
theorem claim_C8_nonpositive_empty (n : Int) (g : Nat → Nat) (u : Nat → ℚ)
    (h : n ≤ 0) :
    generate_customer_data n g = [] ∧ generate_sales_data n g u = [] := by
  have h0 : n.toNat = 0 := Int.toNat_of_nonpos h
  constructor <;>
    simp [generate_customer_data, generate_sales_data, h0]

/-- Witness for C8 at the concrete count `-2`. -/
theorem claim_C8_nonpositive_empty_witness :
    (-2 : Int) ≤ 0 ∧
    (generate_customer_data (-2) gZero = [] ∧
     generate_sales_data (-2) gZero uHalf = []) :=
  ⟨by norm_num, claim_C8_nonpositive_empty (-2) gZero uHalf (by norm_num)⟩

/-! ### Shape of the generators' members -/

theorem mem_generate_customer_data {n : Int} {g : Nat → Nat} {c : Customer}
    (hc : c ∈ generate_customer_data n g) :
    ∃ i, c = mkCustomer i (fun k => g (5 * i + k)) := by
  rcases List.mem_map.mp hc with ⟨i, -, rfl⟩
  exact ⟨i, rfl⟩

theorem mem_generate_sales_data {n : Int} {g : Nat → Nat} {u : Nat → ℚ} {s : Sale}
    (hs : s ∈ generate_sales_data n g u) :
    ∃ i, s = mkSale i (fun k => g (6 * i + k)) (fun k => u (2 * i + k)) := by
  rcases List.mem_map.mp hs with ⟨i, -, rfl⟩
  exact ⟨i, rfl⟩

/-! ### Per-record field facts -/

theorem mkCustomer_credit_limit (i : Nat) (g : Nat → Nat) :
    1000 ≤ (mkCustomer i g).credit_limit ∧ (mkCustomer i g).credit_limit ≤ 50000 :=
  randint_le 1000 50000 (g 2) (by norm_num)

theorem mkCustomer_segment_mem (i : Nat) (g : Nat → Nat) :
    (mkCustomer i g).customer_segment ∈ ["Premium", "Standard", "Basic"] :=
  choiceD_mem _ _ (g 1) (by simp)

theorem mkCustomer_country_mem (i : Nat) (g : Nat → Nat) :
    (mkCustomer i g).country ∈ ["USA", "Canada", "UK", "Germany", "France"] :=
  choiceD_mem _ _ (g 3) (by simp)

theorem mkSale_quantity (i : Nat) (g : Nat → Nat) (u : Nat → ℚ) :
    1 ≤ (mkSale i g u).quantity ∧ (mkSale i g u).quantity ≤ 10 :=
  randint_le 1 10 (g 3) (by norm_num)

theorem mkSale_unit_price (i : Nat) (g : Nat → Nat) (u : Nat → ℚ)
    (h0 : 0 ≤ u 0) (h1 : u 0 < 1) :
    10 ≤ (mkSale i g u).unit_price ∧ (mkSale i g u).unit_price ≤ 500 :=
  unit_price_bounds (u 0) h0 h1

theorem mkSale_discount (i : Nat) (g : Nat → Nat) (u : Nat → ℚ)
    (h0 : 0 ≤ u 1) (h1 : u 1 < 1) :
    0 ≤ (mkSale i g u).discount_percentage ∧
      (mkSale i g u).discount_percentage ≤ 3/10 :=
  discount_bounds (u 1) h0 h1

theorem mkSale_payment_mem (i : Nat) (g : Nat → Nat) (u : Nat → ℚ) :
    (mkSale i g u).payment_method ∈
      ["Credit Card", "Debit Card", "Cash", "Bank Transfer"] :=
  choiceD_mem _ _ (g 4) (by simp)

/-- Claim C4: every numeric field of every generated record falls within its
declared range: `credit_limit ∈ [1000, 50000]`, `quantity ∈ [1, 10]`,
`unit_price ∈ [10, 500]`, `discount_percentage ∈ [0, 0.3]`.  The hypothesis
states that the raw `random.random()` draws lie in `[0, 1)`. -/
theorem claim_C4_numeric_ranges (n : Int) (g : Nat → Nat) (u : Nat → ℚ)
    (hu : ∀ k, 0 ≤ u k ∧ u k < 1) :
    (∀ c ∈ generate_customer_data n g,
       1000 ≤ c.credit_limit ∧ c.credit_limit ≤ 50000) ∧
    (∀ s ∈ generate_sales_data n g u,
       1 ≤ s.quantity ∧ s.quantity ≤ 10 ∧
       10 ≤ s.unit_price ∧ s.unit_price ≤ 500 ∧
       0 ≤ s.discount_percentage ∧ s.discount_percentage ≤ 3/10) := by
  constructor
  · intro c hc
    rcases mem_generate_customer_data hc with ⟨i, rfl⟩
    exact mkCustomer_credit_limit i _
  · intro s hs
    rcases mem_generate_sales_data hs with ⟨i, rfl⟩
    refine ⟨(mkSale_quantity i _ _).1, (mkSale_quantity i _ _).2, ?_⟩
    have hp := mkSale_unit_price i (fun k => g (6 * i + k)) (fun k => u (2 * i + k))
      (hu (2 * i + 0)).1 (hu (2 * i + 0)).2
    have hd := mkSale_discount i (fun k => g (6 * i + k)) (fun k => u (2 * i + k))
      (hu (2 * i + 1)).1 (hu (2 * i + 1)).2
    exact ⟨hp.1, hp.2, hd.1, hd.2⟩

/-- Witness for C4 on the concrete one-record data sets. -/
theorem claim_C4_numeric_ranges_witness :
    (∀ c ∈ generate_customer_data 1 gZero,
       1000 ≤ c.credit_limit ∧ c.credit_limit ≤ 50000) ∧
    (∀ s ∈ generate_sales_data 1 gZero uHalf,
       1 ≤ s.quantity ∧ s.quantity ≤ 10 ∧
       10 ≤ s.unit_price ∧ s.unit_price ≤ 500 ∧
       0 ≤ s.discount_percentage ∧ s.discount_percentage ≤ 3/10) :=
  claim_C4_numeric_ranges 1 gZero uHalf
    (fun _ => ⟨by norm_num [uHalf], by norm_num [uHalf]⟩)

/-- Claim C5: every enumerated field of every generated record takes a value
from its declared fixed set: segment in {Premium, Standard, Basic}, country in
{USA, Canada, UK, Germany, France}, payment method in {Credit Card, Debit
Card, Cash, Bank Transfer}. -/
theorem claim_C5_enumerated_sets (n : Int) (g : Nat → Nat) (u : Nat → ℚ) :
    (∀ c ∈ generate_customer_data n g,
       c.customer_segment ∈ ["Premium", "Standard", "Basic"] ∧
       c.country ∈ ["USA", "Canada", "UK", "Germany", "France"]) ∧
    (∀ s ∈ generate_sales_data n g u,
       s.payment_method ∈ ["Credit Card", "Debit Card", "Cash", "Bank Transfer"]) := by
  constructor
  · intro c hc
    rcases mem_generate_customer_data hc with ⟨i, rfl⟩
    exact ⟨mkCustomer_segment_mem i _, mkCustomer_country_mem i _⟩
  · intro s hs
    rcases mem_generate_sales_data hs with ⟨i, rfl⟩
    exact mkSale_payment_mem i _ _

/-! ### Congruence of a record in its own draws -/

theorem mkCustomer_congr {i : Nat} {g g' : Nat → Nat}
    (h : ∀ k, k < 5 → g k = g' k) : mkCustomer i g = mkCustomer i g' := by
  unfold mkCustomer
  rw [h 0 (by norm_num), h 1 (by norm_num), h 2 (by norm_num),
    h 3 (by norm_num), h 4 (by norm_num)]

theorem mkSale_congr {i : Nat} {g g' : Nat → Nat} {u u' : Nat → ℚ}
    (hg : ∀ k, k < 6 → g k = g' k) (hu : ∀ k, k < 2 → u k = u' k) :
    mkSale i g u = mkSale i g' u' := by
  unfold mkSale
  rw [hg 0 (by norm_num), hg 1 (by norm_num), hg 2 (by norm_num),
    hg 3 (by norm_num), hg 4 (by norm_num), hg 5 (by norm_num),
    hu 0 (by norm_num), hu 1 (by norm_num)]

/-- Claim C3: for each generated record, every field is a fixed function of
one dedicated raw draw (the fields are drawn independently), and each field's
value comes from its fixed enumerated set or fixed numeric range: dates from
the base date plus `[0, 1400]` resp. `[0, 365]` days, segment / country /
payment method / active flag from their fixed sets, credit limit from
`[1000, 50000]`, quantity from `[1, 10]`, unit price from `[10, 500]`,
discount from `[0, 0.3]`, and the referenced customer / product / sales-rep
numbers from `[0, 999]`, `[1, 100]`, `[1, 50]`. -/
theorem claim_C3_independent_fields (i : Nat) (g : Nat → Nat) (u : Nat → ℚ)
    (hu0 : 0 ≤ u 0) (hu0' : u 0 < 1) (hu1 : 0 ≤ u 1) (hu1' : u 1 < 1) :
    (mkCustomer i g = mkCustomerOfDraws i (g 0) (g 1) (g 2) (g 3) (g 4) ∧
     mkSale i g u = mkSaleOfDraws i (g 0) (g 1) (g 2) (g 3) (g 4) (g 5) (u 0) (u 1)) ∧
    (ordinal2020 ≤ (mkCustomer i g).registration_date ∧
     (mkCustomer i g).registration_date ≤ ordinal2020 + 1400 ∧
     (mkCustomer i g).customer_segment ∈ ["Premium", "Standard", "Basic"] ∧
     1000 ≤ (mkCustomer i g).credit_limit ∧ (mkCustomer i g).credit_limit ≤ 50000 ∧
     (mkCustomer i g).country ∈ ["USA", "Canada", "UK", "Germany", "France"] ∧
     (mkCustomer i g).is_active ∈ [true, false]) ∧
    ((∃ k, k ≤ 999 ∧ (mkSale i g u).customer_id = "CUST_" ++ padNum 6 k) ∧
     (∃ k, 1 ≤ k ∧ k ≤ 100 ∧ (mkSale i g u).product_id = "PROD_" ++ padNum 3 k) ∧
     ordinal2023 ≤ (mkSale i g u).transaction_date ∧
     (mkSale i g u).transaction_date ≤ ordinal2023 + 365 ∧
     1 ≤ (mkSale i g u).quantity ∧ (mkSale i g u).quantity ≤ 10 ∧
     10 ≤ (mkSale i g u).unit_price ∧ (mkSale i g u).unit_price ≤ 500 ∧
     0 ≤ (mkSale i g u).discount_percentage ∧
     (mkSale i g u).discount_percentage ≤ 3/10 ∧
     (mkSale i g u).payment_method ∈ ["Credit Card", "Debit Card", "Cash", "Bank Transfer"] ∧
     (∃ k, 1 ≤ k ∧ k ≤ 50 ∧ (mkSale i g u).sales_rep = "REP_" ++ padNum 3 k)) := by
  refine ⟨⟨rfl, rfl⟩, ⟨?_, ?_, mkCustomer_segment_mem i g, (mkCustomer_credit_limit i g).1,
    (mkCustomer_credit_limit i g).2, mkCustomer_country_mem i g, ?_⟩,
    ⟨randint 0 999 (g 0), (randint_le 0 999 (g 0) (by norm_num)).2, rfl⟩,
    ⟨randint 1 100 (g 1), (randint_le 1 100 (g 1) (by norm_num)).1,
      (randint_le 1 100 (g 1) (by norm_num)).2, rfl⟩,
    ?_, ?_, (mkSale_quantity i g u).1, (mkSale_quantity i g u).2,
    (mkSale_unit_price i g u hu0 hu0').1, (mkSale_unit_price i g u hu0 hu0').2,
    (mkSale_discount i g u hu1 hu1').1, (mkSale_discount i g u hu1 hu1').2,
    mkSale_payment_mem i g u,
    ⟨randint 1 50 (g 5), (randint_le 1 50 (g 5) (by norm_num)).1,
      (randint_le 1 50 (g 5) (by norm_num)).2, rfl⟩⟩
  · exact Nat.le_add_right _ _
  · have := (randint_le 0 1400 (g 0) (by norm_num)).2
    show ordinal2020 + randint 0 1400 (g 0) ≤ ordinal2020 + 1400
    omega
  · exact choiceD_mem [true, false] true (g 4) (by simp)
  · exact Nat.le_add_right _ _
  · have := (randint_le 0 365 (g 2) (by norm_num)).2
    show ordinal2023 + randint 0 365 (g 2) ≤ ordinal2023 + 365
    omega

/-- Witness for C3: the independent-draw decomposition at the concrete
streams. -/
theorem claim_C3_independent_fields_witness :
    mkCustomer 0 gZero = mkCustomerOfDraws 0 (gZero 0) (gZero 1) (gZero 2) (gZero 3) (gZero 4) ∧
    mkSale 0 gZero uHalf =
      mkSaleOfDraws 0 (gZero 0) (gZero 1) (gZero 2) (gZero 3) (gZero 4) (gZero 5)
        (uHalf 0) (uHalf 1) :=
  (claim_C3_independent_fields 0 gZero uHalf (by norm_num [uHalf]) (by norm_num [uHalf])
    (by norm_num [uHalf]) (by norm_num [uHalf])).1

/-- Claim C6: the i-th record of each generator is a function only of the
index i and the draws consumed for that record: streams agreeing on that one
record's draw window — the customer window `5i .. 5i+4`, respectively the
sales windows `6i .. 6i+5` and `2i, 2i+1` — yield the same i-th record of
that generator, whatever the draws feeding the other records are.  Each
generator's conclusion assumes agreement on its own window only. -/
theorem claim_C6_record_locality (n : Int) (g g' : Nat → Nat) (u u' : Nat → ℚ)
    (i : Nat) :
    ((∀ k, k < 5 → g (5 * i + k) = g' (5 * i + k)) →
       (generate_customer_data n g)[i]? = (generate_customer_data n g')[i]?) ∧
    ((∀ k, k < 6 → g (6 * i + k) = g' (6 * i + k)) →
     (∀ k, k < 2 → u (2 * i + k) = u' (2 * i + k)) →
       (generate_sales_data n g u)[i]? = (generate_sales_data n g' u')[i]?) := by
  constructor
  · intro hgc
    unfold generate_customer_data
    rw [List.getElem?_map, List.getElem?_map]
    by_cases h : i < n.toNat
    · rw [List.getElem?_range h, Option.map_some', Option.map_some',
        mkCustomer_congr (fun k hk => hgc k hk)]
    · rw [List.getElem?_eq_none (by simpa using Nat.le_of_not_lt h)]
      rfl
  · intro hgs hus
    unfold generate_sales_data
    rw [List.getElem?_map, List.getElem?_map]
    by_cases h : i < n.toNat
    · rw [List.getElem?_range h, Option.map_some', Option.map_some',
        mkSale_congr (fun k hk => hgs k hk) (fun k hk => hus k hk)]
    · rw [List.getElem?_eq_none (by simpa using Nat.le_of_not_lt h)]
      rfl

/-- Witness for C6.  The customer conclusion is exercised with `gZero` and
`gFive`, which agree on customer record 0's window `0 .. 4` but differ at
offset 5 — a draw inside the sales window, i.e. entropy another record could
consume; the sales conclusion with `gZero` and `gSeven`, which agree on sales
record 0's window `0 .. 5` but differ beyond it. -/
theorem claim_C6_record_locality_witness :
    (generate_customer_data 1 gZero)[0]? = (generate_customer_data 1 gFive)[0]? ∧
    (generate_sales_data 1 gZero uHalf)[0]? = (generate_sales_data 1 gSeven uHalf)[0]? :=
  ⟨(claim_C6_record_locality 1 gZero gFive uHalf uHalf 0).1
    (fun k hk => by
      have h5 : k < 5 := by omega
      simp [gZero, gFive, h5]),
   (claim_C6_record_locality 1 gZero gSeven uHalf uHalf 0).2
    (fun k hk => by
      have h6 : k < 6 := by omega
      simp [gZero, gSeven, h6])
    (fun _ _ => rfl)⟩

/-- Claim C7: two successive calls of a generator with the same count produce
two sequences of the same length `N`; no mutable state is shared between the
calls, so the second call ranges over exactly the same outputs as a single
call does, whether or not the first call occurred. -/
theorem claim_C7_independent_calls (n : Int) (g : Nat → Nat) (u : Nat → ℚ) :
    ((generate_customer_data_twice n g).1.length = n.toNat ∧
     (generate_customer_data_twice n g).2.length = n.toNat) ∧
    ((generate_sales_data_twice n g u).1.length = n.toNat ∧
     (generate_sales_data_twice n g u).2.length = n.toNat) ∧
    (∀ l, (∃ g', (generate_customer_data_twice n g').2 = l) ↔
          (∃ g', generate_customer_data n g' = l)) ∧
    (∀ l, (∃ g' u', (generate_sales_data_twice n g' u').2 = l) ↔
          (∃ g' u', generate_sales_data n g' u' = l)) := by
  refine ⟨⟨?_, ?_⟩, ⟨?_, ?_⟩, ?_, ?_⟩
  · simp [generate_customer_data_twice, generate_customer_data]
  · simp [generate_customer_data_twice, generate_customer_data]
  · simp [generate_sales_data_twice, generate_sales_data]
  · simp [generate_sales_data_twice, generate_sales_data]
  · intro l
    constructor
    · rintro ⟨g', rfl⟩
      exact ⟨fun k => g' (5 * n.toNat + k), rfl⟩
    · rintro ⟨g', rfl⟩
      refine ⟨fun k => g' (k - 5 * n.toNat), ?_⟩
      show generate_customer_data n
          (fun k => g' (5 * n.toNat + k - 5 * n.toNat)) = generate_customer_data n g'
      congr 1
      funext k
      congr 1
      omega
  · intro l
    constructor
    · rintro ⟨g', u', rfl⟩
      exact ⟨fun k => g' (6 * n.toNat + k), fun k => u' (2 * n.toNat + k), rfl⟩
    · rintro ⟨g', u', rfl⟩
      refine ⟨fun k => g' (k - 6 * n.toNat), fun k => u' (k - 2 * n.toNat), ?_⟩
      show generate_sales_data n
          (fun k => g' (6 * n.toNat + k - 6 * n.toNat))
          (fun k => u' (2 * n.toNat + k - 2 * n.toNat)) = generate_sales_data n g' u'
      congr 1
      · funext k
        congr 1
        omega
      · funext k
        congr 1
        omega

/-- Claim C9: the `customer_id`s of `generate_customer_data N` are pairwise
distinct, and the `transaction_id`s of `generate_sales_data N` are pairwise
distinct; each is the fixed prefix followed by the zero-padded rendering of
its record's index. -/
theorem claim_C9_distinct_ids (n : Int) (g : Nat → Nat) (u : Nat → ℚ) :
    ((generate_customer_data n g).map Customer.customer_id =
       (List.range n.toNat).map (fun i => "CUST_" ++ padNum 6 i)) ∧
    ((generate_sales_data n g u).map Sale.transaction_id =
       (List.range n.toNat).map (fun i => "TXN_" ++ padNum 8 i)) ∧
    ((generate_customer_data n g).map Customer.customer_id).Nodup ∧
    ((generate_sales_data n g u).map Sale.transaction_id).Nodup := by
  have hc : (generate_customer_data n g).map Customer.customer_id =
      (List.range n.toNat).map (fun i => "CUST_" ++ padNum 6 i) := by
    unfold generate_customer_data
    rw [List.map_map]
    rfl
  have hs : (generate_sales_data n g u).map Sale.transaction_id =
      (List.range n.toNat).map (fun i => "TXN_" ++ padNum 8 i) := by
    unfold generate_sales_data
    rw [List.map_map]
    rfl
  refine ⟨hc, hs, ?_, ?_⟩
  · rw [hc]
    exact (List.nodup_range _).map (append_padNum_inj "CUST_" 6)
  · rw [hs]
    exact (List.nodup_range _).map (append_padNum_inj "TXN_" 8)

/-- Claim C10: every record of `generate_sales_data N` has a `customer_id` of
the form `CUST_` followed by the six-digit zero-padded rendering of some
`k ≤ 999`, so it coincides with a `customer_id` produced by
`generate_customer_data 1000` (under any entropy stream, the id being
entropy-free). -/
theorem claim_C10_customer_reference (n : Int) (g : Nat → Nat) (u : Nat → ℚ)
    (s : Sale) (hs : s ∈ generate_sales_data n g u) :
    ∃ k, k ≤ 999 ∧ s.customer_id = "CUST_" ++ padNum 6 k ∧
      ∀ e : Nat → Nat, ∃ c ∈ generate_customer_data 1000 e,
        c.customer_id = s.customer_id := by
  rcases mem_generate_sales_data hs with ⟨i, rfl⟩
  refine ⟨randint 0 999 (g (6 * i + 0)),
    (randint_le 0 999 (g (6 * i + 0)) (by norm_num)).2, rfl, ?_⟩
  intro e
  refine ⟨mkCustomer (randint 0 999 (g (6 * i + 0)))
    (fun k => e (5 * randint 0 999 (g (6 * i + 0)) + k)), ?_, rfl⟩
  exact List.mem_map.mpr ⟨randint 0 999 (g (6 * i + 0)),
    List.mem_range.mpr (by
      have := (randint_le 0 999 (g (6 * i + 0)) (by norm_num)).2
      omega), rfl⟩

/-- Witness for C10 on the concrete one-record sales data set. -/
theorem claim_C10_customer_reference_witness :
    ∃ k, k ≤ 999 ∧ sale0.customer_id = "CUST_" ++ padNum 6 k ∧
      ∀ e : Nat → Nat, ∃ c ∈ generate_customer_data 1000 e,
        c.customer_id = sale0.customer_id :=
  claim_C10_customer_reference 1 gZero uHalf sale0 (List.mem_singleton.mpr rfl)
